import Mathlib

/-!
Shallow embedding of the `sessionlogger` Go package
(`config.go` and `logger.go`, including the legacy global-state variant
appended to `logger.go`), together with proofs about the claims of its
specification.

Modelling conventions:
* `io.Writer` values are modelled by the inductive `Writer`; Go `nil`
  writers are `Option.none` at use sites.
* Go panics are modelled by the `GoPanic` type; a function that can panic
  returns `Except GoPanic _`.  An explicit `panic("msg")` becomes
  `GoPanic.message "msg"`; a runtime array-index failure becomes
  `GoPanic.indexOutOfRange`; calling a method on a nil value becomes
  `GoPanic.nilDereference`.
* Go `[3]T` arrays are modelled by `Arr3 T` with run-time-checked integer
  indexing (`Arr3.get?` / `Arr3.set?` return `none` exactly when the Go
  access would panic with "index out of range").
* Machine `int` (the `logLevel` type) is modelled by `Int`.
* Filesystem effects are modelled by an oracle `FsEnv` giving the outcome
  of `os.MkdirAll` and `os.Create` and the formatted timestamp used in the
  log-file name.
* The ID service is a channel receive; the token received is passed to
  `NewSessionLogger` as an explicit argument.
-/

set_option autoImplicit false

namespace SessionLogger

/-- The `io.Writer` values that occur in the package: `os.Stdout`,
`os.Stderr`, `ioutil.Discard`, `os.File` handles, and the fan-out writer
produced by `io.MultiWriter`. -/
inductive Writer where
  | stdout
  | stderr
  | discard
  | file (path : String)
  | multi (ws : List Writer)

/-- Go panics, as observed by a caller. -/
inductive GoPanic where
  | message (s : String)
  | indexOutOfRange
  | nilDereference
deriving DecidableEq

/-- A Go `error` value (as produced by `errors.New` or by the os package). -/
structure GoError where
  msg : String
deriving DecidableEq

/-- A Go `[3]T` array. -/
structure Arr3 (α : Type) where
  v0 : α
  v1 : α
  v2 : α

/-- Checked read `a[i]` of a Go `[3]T` array: `none` means the Go program
panics with "index out of range". -/
def Arr3.get? {α : Type} (a : Arr3 α) (i : Int) : Option α :=
  if i = 0 then some a.v0
  else if i = 1 then some a.v1
  else if i = 2 then some a.v2
  else none

/-- Checked write `a[i] = x` of a Go `[3]T` array: `none` means the Go
program panics with "index out of range" (and the array is unchanged). -/
def Arr3.set? {α : Type} (a : Arr3 α) (i : Int) (x : α) : Option (Arr3 α) :=
  if i = 0 then some { a with v0 := x }
  else if i = 1 then some { a with v1 := x }
  else if i = 2 then some { a with v2 := x }
  else none

/-- Go `type logLevel int`. -/
abbrev logLevel := Int

/-- `Info = logLevel(iota)` -/
def Info : logLevel := 0

/-- `Warn` -/
def Warn : logLevel := 1

/-- `Err` -/
def Err : logLevel := 2

/-- `LoggerConfig` from config.go: per level a disabled flag and an
optional writer (`nil` = use the default for this level). -/
structure LoggerConfig where
  Disabled : Arr3 Bool
  Writers : Arr3 (Option Writer)

/-- The message of the explicit out-of-range panic in `Disable` and
`Writer`. -/
def oorMsg : String := "Log level out of range. Use the constants dumdum."

/-- `(*LoggerConfig).Disable` from config.go.  The Go method mutates the
receiver in place and returns it for chaining; we model it as state
passing.  Note the source guard is `l < 0 || l > 3`, so `l = 3` slips past
the guard and the array write `lc.Disabled[l] = true` panics at run time
with an index-out-of-range panic (modelled by `GoPanic.indexOutOfRange`);
in both panic cases the config is unchanged. -/
def LoggerConfig.Disable (lc : LoggerConfig) (l : logLevel) :
    Except GoPanic LoggerConfig :=
  if l < 0 ∨ l > 3 then .error (.message oorMsg)
  else
    match lc.Disabled.set? l true with
    | none => .error .indexOutOfRange
    | some d => .ok { lc with Disabled := d }

/-- `(*LoggerConfig).Writer` from config.go: stores
`io.MultiWriter(w...)` (always a non-nil writer, even for an empty
argument list) at index `l`.  The same off-by-one guard as in `Disable`
applies: `l = 3` reaches the array write and panics with an
index-out-of-range panic. -/
def LoggerConfig.Writer (lc : LoggerConfig) (l : logLevel)
    (ws : List Writer) : Except GoPanic LoggerConfig :=
  if l < 0 ∨ l > 3 then .error (.message oorMsg)
  else
    match lc.Writers.set? l (some (.multi ws)) with
    | none => .error .indexOutOfRange
    | some a => .ok { lc with Writers := a }

/-- `var defaultWriters = []io.Writer{os.Stdout, os.Stdout, os.Stderr}`. -/
def defaultWriters : Arr3 Writer := ⟨.stdout, .stdout, .stderr⟩

/-- `(*LoggerConfig).GetWriter` from config.go.  The guard `l < 0 || l > 3`
sends genuinely out-of-range levels except `3` to `os.Stdout`; for `l = 3`
the guard is passed and the read `lc.Disabled[l]` panics at run time
(modelled by `GoPanic.indexOutOfRange`). -/
def LoggerConfig.GetWriter (lc : LoggerConfig) (l : logLevel) :
    Except GoPanic SessionLogger.Writer :=
  if l < 0 ∨ l > 3 then .ok .stdout
  else
    match lc.Disabled.get? l with
    | none => .error .indexOutOfRange
    | some d =>
      if d then .ok .discard
      else
        match lc.Writers.get? l with
        | none => .error .indexOutOfRange
        | some w =>
          match w with
          | none =>
            match defaultWriters.get? l with
            | none => .error .indexOutOfRange
            | some dw => .ok dw
          | some cw => .ok cw

/-- Modelled from the spec: logger.go refers to a type `Config` (e.g.
`DefaultConfig = &Config{}`, methods `(*Config).NewMasterLogger`) whose
definition does not appear under the sources; its methods call
`lc.GetWriter`, and the spec describes a single Config holding, per
severity level, an enabled flag and a destination sink — exactly
`LoggerConfig`.  We therefore identify `Config` with `LoggerConfig`. -/
abbrev Config := LoggerConfig

/-- `var DefaultConfig = &Config{}` — the zero value of the config. -/
def DefaultConfig : Config := ⟨⟨false, false, false⟩, ⟨none, none, none⟩⟩

mutual

/-- The base destinations a write reaches: writing `s` to a writer
delivers `(w, s)` for each base (non-fan-out) writer `w` that receives the
content.  `ioutil.Discard` delivers nothing; `io.MultiWriter` duplicates
the write to all its components. -/
def Writer.deliver : Writer → String → List (Writer × String)
  | .stdout, s => [(.stdout, s)]
  | .stderr, s => [(.stderr, s)]
  | .file p, s => [(.file p, s)]
  | .discard, _ => []
  | .multi ws, s => Writer.deliverList ws s

/-- Delivery of one write to each writer of a list, concatenated. -/
def Writer.deliverList : List Writer → String → List (Writer × String)
  | [], _ => []
  | w :: ws, s => w.deliver s ++ Writer.deliverList ws s

end

/-- `log.Ldate` -/
def Ldate : Nat := 1

/-- `log.Ltime` -/
def Ltime : Nat := 2

/-- `log.Lshortfile` -/
def Lshortfile : Nat := 16

/-- A standard-library `log.Logger` as configured by `log.New(out, pfx,
flag)`: we record the output writer, the per-line prefix string and the
flag word (the formatting of the date/time/file header itself is not
modelled). -/
structure LogLogger where
  out : Writer
  pfx : String
  flag : Nat

/-- A line emitted through a `log.Logger`: the sink it is written to, the
logger's prefix and the message text. -/
structure LogEvent where
  sink : Writer
  pfx : String
  msg : String

/-- `(*log.Logger).Println(s)`: the event this call emits. -/
def LogLogger.println (lg : LogLogger) (s : String) : LogEvent :=
  ⟨lg.out, lg.pfx, s⟩

/-- `Logger` from logger.go: three `log.Logger` channels and the unique ID
string (`"MASTER"` for a master logger). -/
structure Logger where
  I : LogLogger
  W : LogLogger
  E : LogLogger
  ID : String

/-- `(*Config).newLogger(prefix)` from logger.go: resolves the three
per-level writers from the config once, at construction time, and builds
the three channels with prefixes `"INFO"`/`"WARN"`/`" ERR"` followed by
the given prefix string and `": "`.  The Go `Logger` zero value has
`ID = ""`. -/
def Config.newLogger (lc : Config) (pfx : String) : Except GoPanic Logger := do
  let wi ← lc.GetWriter Info
  let ww ← lc.GetWriter Warn
  let we ← lc.GetWriter Err
  .ok { I := ⟨wi, "INFO" ++ pfx ++ ": ", Ldate ||| Ltime ||| Lshortfile⟩
        W := ⟨ww, "WARN" ++ pfx ++ ": ", Ldate ||| Ltime ||| Lshortfile⟩
        E := ⟨we, " ERR" ++ pfx ++ ": ", Ldate ||| Ltime ||| Lshortfile⟩
        ID := "" }

/-- `(*Config).NewMasterLogger` from logger.go: `newLogger("")` with
`ID = "MASTER"`.  It consumes no ID-service token (the function has no
token argument) and emits no write on construction (the returned event
trace is empty). -/
def Config.NewMasterLogger (lc : Config) :
    Except GoPanic (Logger × List LogEvent) := do
  let log ← Config.newLogger lc ""
  .ok ({ log with ID := "MASTER" }, [])

/-- `(*Config).NewSessionLogger(endpoint)` from logger.go.  The receive
`id := <-logIDService` is modelled by the explicit argument `id` (the
token the ID service hands to this call).  The call builds the logger with
line prefix `"@" ++ endpoint ++ ":" ++ id`, sets `ID = id` (note: the `ID`
field receives the bare token, not the composed string), and emits one
`log.I.Println("")` — the returned event trace. -/
def Config.NewSessionLogger (lc : Config) (endpoint id : String) :
    Except GoPanic (Logger × List LogEvent) := do
  let log ← Config.newLogger lc ("@" ++ endpoint ++ ":" ++ id)
  let log := { log with ID := id }
  .ok (log, [log.I.println ""])

/-- An `os.File` handle, identified by the path it was created with. -/
structure GoFile where
  path : String
deriving DecidableEq

/-- Filesystem/clock oracle: outcome of `os.MkdirAll` per directory,
outcome of `os.Create` per path (`none` = success), and the current time
formatted with `"m01-d02-t150405"`. -/
structure FsEnv where
  mkdirAllErr : String → Option GoError
  createErr : String → Option GoError
  nowStamp : String

/-- `CreateLogFile` from logger.go: `os.MkdirAll(logdir, 0775)`, then
`os.Create(logdir + "/" + <timestamp> + ".log")`, propagating either
error. -/
def CreateLogFile (env : FsEnv) (logdir : String) : Except GoError GoFile :=
  match env.mkdirAllErr logdir with
  | some e => .error e
  | none =>
    match env.createErr (logdir ++ "/" ++ env.nowStamp ++ ".log") with
    | some e => .error e
    | none => .ok ⟨logdir ++ "/" ++ env.nowStamp ++ ".log"⟩

/-- `MustCreateLogFile` from logger.go: `CreateLogFile` that panics on
error and returns the file otherwise. -/
def MustCreateLogFile (env : FsEnv) (logdir : String) :
    Except GoPanic GoFile :=
  match CreateLogFile env logdir with
  | .error e =>
    .error (.message ("Log file creation failed. *shrug* Guess I\x27ll die.\n" ++ e.msg))
  | .ok f => .ok f

/-- The package-level mutable state of the legacy (global-state) variant
appended to logger.go: the `loggerInitted` guard, the three global level
writers (`nil` before initialization), and whether the ID-service
goroutine has been started. -/
structure GlobalState where
  loggerInitted : Bool
  infoLog : Option Writer
  warnLog : Option Writer
  errorLog : Option Writer
  idServiceStarted : Bool

/-- The process state at program start: nothing initialized. -/
def initialState : GlobalState := ⟨false, none, none, none, false⟩

/-- `var ErrAlreadyInitalized = errors.New("Logger system was already
initialized.")` from the legacy variant. -/
def ErrAlreadyInitalized : GoError := ⟨"Logger system was already initialized."⟩

/-- `InitalizeLogger` from the legacy variant of logger.go, as explicit
state passing over `GlobalState`.  Note a slip in the source: the
already-initialized branch returns the identifier
`ErrLoggerAlreadyInitalized`, which is declared nowhere (the declared
error, which the doc comment on line 188 says this function returns, is
`ErrAlreadyInitalized`); we model the clearly intended behaviour of
returning `ErrAlreadyInitalized`.  On any error path the global state is
unchanged. -/
def InitalizeLogger (env : FsEnv) (st : GlobalState) (logdir : String) :
    Except GoError Unit × GlobalState :=
  if st.loggerInitted then (.error ErrAlreadyInitalized, st)
  else if logdir ≠ "" then
    match env.mkdirAllErr logdir with
    | some e => (.error e, st)
    | none =>
      match env.createErr (logdir ++ "/" ++ env.nowStamp ++ ".log") with
      | some e => (.error e, st)
      | none =>
        (.ok (),
         { loggerInitted := true
           infoLog := some (.multi [.file (logdir ++ "/" ++ env.nowStamp ++ ".log"), .stdout])
           warnLog := some (.multi [.file (logdir ++ "/" ++ env.nowStamp ++ ".log"), .stdout])
           errorLog := some (.multi [.file (logdir ++ "/" ++ env.nowStamp ++ ".log"), .stderr])
           idServiceStarted := true })
  else
    (.ok (),
     { loggerInitted := true
       infoLog := some .stdout
       warnLog := some .stdout
       errorLog := some .stderr
       idServiceStarted := true })

/-- `MustInitalizeLogger` from the legacy variant:
`panic("..." + InitalizeLogger(logdir).Error())`.  The panic is
unconditional; when `InitalizeLogger` succeeds it returns a nil error, and
calling `.Error()` on a nil error is itself a run-time panic
(`GoPanic.nilDereference`).  State changes made by `InitalizeLogger`
before the panic are kept. -/
def MustInitalizeLogger (env : FsEnv) (st : GlobalState) (logdir : String) :
    Except GoPanic Unit × GlobalState :=
  match InitalizeLogger env st logdir with
  | (.ok _, st2) => (.error .nilDereference, st2)
  | (.error e, st2) =>
    (.error (.message ("Logger initialization failed. *shrug* Guess I\x27ll die.\n" ++ e.msg)), st2)

/-! Helper characterizations of `GetWriter` at the three valid levels. -/

/-- The writer `GetWriter` yields for `Info` on a given config. -/
def resolveInfo (lc : LoggerConfig) : Writer :=
  if lc.Disabled.v0 then .discard else (lc.Writers.v0).getD .stdout

/-- The writer `GetWriter` yields for `Warn` on a given config. -/
def resolveWarn (lc : LoggerConfig) : Writer :=
  if lc.Disabled.v1 then .discard else (lc.Writers.v1).getD .stdout

/-- The writer `GetWriter` yields for `Err` on a given config. -/
def resolveErr (lc : LoggerConfig) : Writer :=
  if lc.Disabled.v2 then .discard else (lc.Writers.v2).getD .stderr

theorem GetWriter_Info_eq (lc : LoggerConfig) :
    lc.GetWriter Info = .ok (resolveInfo lc) := by
  obtain ⟨⟨d0, d1, d2⟩, ⟨w0, w1, w2⟩⟩ := lc
  cases d0 <;> cases w0 <;> rfl

theorem GetWriter_Warn_eq (lc : LoggerConfig) :
    lc.GetWriter Warn = .ok (resolveWarn lc) := by
  obtain ⟨⟨d0, d1, d2⟩, ⟨w0, w1, w2⟩⟩ := lc
  cases d1 <;> cases w1 <;> rfl

theorem GetWriter_Err_eq (lc : LoggerConfig) :
    lc.GetWriter Err = .ok (resolveErr lc) := by
  obtain ⟨⟨d0, d1, d2⟩, ⟨w0, w1, w2⟩⟩ := lc
  cases d2 <;> cases w2 <;> rfl

/-- `newLogger` always succeeds and snapshots the three writers that
`GetWriter` resolves on the given config at construction time. -/
theorem newLogger_eq (lc : Config) (pfx : String) :
    Config.newLogger lc pfx = .ok
      { I := ⟨resolveInfo lc, "INFO" ++ pfx ++ ": ", Ldate ||| Ltime ||| Lshortfile⟩
        W := ⟨resolveWarn lc, "WARN" ++ pfx ++ ": ", Ldate ||| Ltime ||| Lshortfile⟩
        E := ⟨resolveErr lc, " ERR" ++ pfx ++ ": ", Ldate ||| Ltime ||| Lshortfile⟩
        ID := "" } := by
  unfold Config.newLogger
  rw [GetWriter_Info_eq, GetWriter_Warn_eq, GetWriter_Err_eq]
  rfl

/-- Claim C6: for every valid level `l ∈ {Info, Warn, Err}` and every
config, `Disable l` succeeds and afterwards `GetWriter l` returns the
discard sink, and every write to the discard sink is accepted and
delivered to no destination. -/
theorem C6_disable_then_resolve_discards (cfg : LoggerConfig) (l : Int)
    (h0 : 0 ≤ l) (h1 : l < 3) :
    ∃ cfg2, cfg.Disable l = .ok cfg2 ∧ cfg2.GetWriter l = .ok .discard ∧
      ∀ s, Writer.deliver .discard s = [] := by
  have hl : l = 0 ∨ l = 1 ∨ l = 2 := by omega
  obtain ⟨⟨d0, d1, d2⟩, ws⟩ := cfg
  rcases hl with rfl | rfl | rfl
  · exact ⟨_, rfl, rfl, fun s => rfl⟩
  · exact ⟨_, rfl, rfl, fun s => rfl⟩
  · exact ⟨_, rfl, rfl, fun s => rfl⟩

/-- Witness for C6 at `l = Info` on the zero-value config. -/
theorem C6_witness :
    (0 : Int) ≤ 0 ∧ (0 : Int) < 3 ∧
    (∃ cfg2, DefaultConfig.Disable 0 = .ok cfg2 ∧
      cfg2.GetWriter 0 = .ok .discard ∧
      ∀ s, Writer.deliver .discard s = []) :=
  ⟨by decide, by decide,
    C6_disable_then_resolve_discards DefaultConfig 0 (by decide) (by decide)⟩

/-- Claim C7: for every valid level `l`, on a config where level `l` has
no configured writer and is not disabled, `GetWriter l` returns the
built-in default: `os.Stdout` for `Info` and `Warn`, `os.Stderr` for
`Err`. -/
theorem C7_default_resolution (cfg : LoggerConfig) (l : Int)
    (h0 : 0 ≤ l) (h1 : l < 3)
    (hd : cfg.Disabled.get? l = some false)
    (hw : cfg.Writers.get? l = some none) :
    cfg.GetWriter l = .ok (if l = 2 then .stderr else .stdout) := by
  have hl : l = 0 ∨ l = 1 ∨ l = 2 := by omega
  obtain ⟨⟨d0, d1, d2⟩, ⟨w0, w1, w2⟩⟩ := cfg
  rcases hl with rfl | rfl | rfl <;>
    simp [Arr3.get?] at hd hw <;>
    subst hd <;> subst hw <;> rfl

/-- Witness for C7 at `l = Err` on the zero-value config. -/
theorem C7_witness :
    (0 : Int) ≤ 2 ∧ (2 : Int) < 3 ∧
    DefaultConfig.Disabled.get? 2 = some false ∧
    DefaultConfig.Writers.get? 2 = some none ∧
    DefaultConfig.GetWriter 2 = .ok (if (2 : Int) = 2 then .stderr else .stdout) :=
  ⟨by decide, by decide, rfl, rfl,
    C7_default_resolution DefaultConfig 2 (by decide) (by decide) rfl rfl⟩

/-- Claim C10 (implicit): for every valid level `l` that is not disabled,
`Writer l` with an empty sink list installs the non-nil empty fan-out
`multi []`, so a subsequent `GetWriter l` returns that empty fan-out
(which delivers every write to no destination) rather than falling back
to the level's built-in default. -/
theorem C10_empty_writer_list_silences (cfg : LoggerConfig) (l : Int)
    (h0 : 0 ≤ l) (h1 : l < 3)
    (hd : cfg.Disabled.get? l = some false) :
    ∃ cfg2, cfg.Writer l [] = .ok cfg2 ∧
      cfg2.GetWriter l = .ok (.multi []) ∧
      (∀ s, Writer.deliver (.multi []) s = []) ∧
      (∀ dw, defaultWriters.get? l = some dw → Writer.multi [] ≠ dw) := by
  have hl : l = 0 ∨ l = 1 ∨ l = 2 := by omega
  obtain ⟨⟨d0, d1, d2⟩, ⟨w0, w1, w2⟩⟩ := cfg
  rcases hl with rfl | rfl | rfl <;>
    simp [Arr3.get?] at hd <;>
    subst hd
  · exact ⟨_, rfl, rfl, fun s => rfl,
      fun dw hdw => by injection hdw with h2; subst h2; exact fun hc => Writer.noConfusion hc⟩
  · exact ⟨_, rfl, rfl, fun s => rfl,
      fun dw hdw => by injection hdw with h2; subst h2; exact fun hc => Writer.noConfusion hc⟩
  · exact ⟨_, rfl, rfl, fun s => rfl,
      fun dw hdw => by injection hdw with h2; subst h2; exact fun hc => Writer.noConfusion hc⟩

/-- Witness for C10 at `l = Info` on the zero-value config. -/
theorem C10_witness :
    (0 : Int) ≤ 0 ∧ (0 : Int) < 3 ∧
    DefaultConfig.Disabled.get? 0 = some false ∧
    (∃ cfg2, DefaultConfig.Writer 0 [] = .ok cfg2 ∧
      cfg2.GetWriter 0 = .ok (.multi []) ∧
      (∀ s, Writer.deliver (.multi []) s = []) ∧
      (∀ dw, defaultWriters.get? 0 = some dw → Writer.multi [] ≠ dw)) :=
  ⟨by decide, by decide, rfl,
    C10_empty_writer_list_silences DefaultConfig 0 (by decide) (by decide) rfl⟩

/-- Claim C2 (code bug): the claim says `GetWriter` never fails on an
invalid level and returns the stdout sink.  That holds for levels below 0
and above 3, but the guard `l < 0 || l > 3` lets the invalid level `3`
through, and the subsequent read `lc.Disabled[3]` of the `[3]bool` array
panics with an index-out-of-range panic — contradicting the source's own
doc comment ("No matter what, a valid writer will be returned"). -/
theorem C2_getWriter_level3_panics :
    DefaultConfig.GetWriter 3 = .error .indexOutOfRange ∧
    DefaultConfig.GetWriter 4 = .ok .stdout ∧
    DefaultConfig.GetWriter (-1) = .ok .stdout ∧
    DefaultConfig.GetWriter 100 = .ok .stdout :=
  ⟨rfl, rfl, rfl, rfl⟩

/-- Claim C3 (code bug): `Disable` and `Writer` do reject every invalid
level and leave the config unchanged, but for the invalid level `3` the
validation guard `l < 0 || l > 3` does not fire; the failure is instead a
run-time index-out-of-range panic at the array write, not the documented
level-out-of-range panic (which is what levels `-1` and `4` produce). -/
theorem C3_mutators_level3_wrong_panic :
    DefaultConfig.Disable 3 = .error .indexOutOfRange ∧
    DefaultConfig.Writer 3 [] = .error .indexOutOfRange ∧
    GoPanic.indexOutOfRange ≠ GoPanic.message oorMsg ∧
    DefaultConfig.Disable 4 = .error (.message oorMsg) ∧
    DefaultConfig.Disable (-1) = .error (.message oorMsg) ∧
    DefaultConfig.Writer 4 [.stderr] = .error (.message oorMsg) ∧
    DefaultConfig.Writer (-1) [] = .error (.message oorMsg) :=
  ⟨rfl, rfl, by decide, rfl, rfl, rfl, rfl⟩

/-- Claim C8: for every config, `NewMasterLogger` succeeds with identity
string exactly `"MASTER"`, an empty prefix segment on all three channels,
the construction-time resolved sinks, and an empty emitted-event trace
(no implicit line is written; the definition also consumes no ID-service
token). -/
theorem C8_master_logger (cfg : Config) :
    Config.NewMasterLogger cfg = .ok
      ({ I := ⟨resolveInfo cfg, "INFO" ++ "" ++ ": ", Ldate ||| Ltime ||| Lshortfile⟩
         W := ⟨resolveWarn cfg, "WARN" ++ "" ++ ": ", Ldate ||| Ltime ||| Lshortfile⟩
         E := ⟨resolveErr cfg, " ERR" ++ "" ++ ": ", Ldate ||| Ltime ||| Lshortfile⟩
         ID := "MASTER" }, []) := by
  unfold Config.NewMasterLogger
  rw [newLogger_eq]
  rfl

/-- Counterexample to claim C1 as stated: the Logger built by
`NewSessionLogger` on the zero config with endpoint `"foo"` and ID-service
token `"abc"` has `ID = "abc"`, the bare token — not the composed string
`"@foo:abc"` the claim requires the identity string to be. -/
theorem C1_counterexample :
    ∃ L, Config.NewSessionLogger DefaultConfig "foo" "abc" =
        .ok (L, [L.I.println ""]) ∧
      L.ID = "abc" ∧ L.ID ≠ "@foo:abc" := by
  refine ⟨{ I := ⟨.stdout, "INFO" ++ "@foo:abc" ++ ": ", Ldate ||| Ltime ||| Lshortfile⟩
            W := ⟨.stdout, "WARN" ++ "@foo:abc" ++ ": ", Ldate ||| Ltime ||| Lshortfile⟩
            E := ⟨.stderr, " ERR" ++ "@foo:abc" ++ ": ", Ldate ||| Ltime ||| Lshortfile⟩
            ID := "abc" }, ?_, rfl, by decide⟩
  unfold Config.NewSessionLogger
  rw [newLogger_eq]
  rfl

/-- Claim C1 as amended: for every config, endpoint `e` and ID-service
token `id`, `NewSessionLogger` succeeds; the Logger's identity string
(`ID` field) is the bare token `id`; the composed string `@e:id` is
embedded in the line prefix of all three channels; and the construction
emits exactly one write, a blank line through the Info channel. -/
theorem C1_session_logger (cfg : Config) (e id : String) :
    ∃ L, Config.NewSessionLogger cfg e id = .ok (L, [⟨L.I.out, L.I.pfx, ""⟩]) ∧
      L.ID = id ∧
      L.I.out = resolveInfo cfg ∧
      L.I.pfx = "INFO" ++ ("@" ++ e ++ ":" ++ id) ++ ": " ∧
      L.W.pfx = "WARN" ++ ("@" ++ e ++ ":" ++ id) ++ ": " ∧
      L.E.pfx = " ERR" ++ ("@" ++ e ++ ":" ++ id) ++ ": " := by
  refine ⟨{ I := ⟨resolveInfo cfg, "INFO" ++ ("@" ++ e ++ ":" ++ id) ++ ": ", Ldate ||| Ltime ||| Lshortfile⟩
            W := ⟨resolveWarn cfg, "WARN" ++ ("@" ++ e ++ ":" ++ id) ++ ": ", Ldate ||| Ltime ||| Lshortfile⟩
            E := ⟨resolveErr cfg, " ERR" ++ ("@" ++ e ++ ":" ++ id) ++ ": ", Ldate ||| Ltime ||| Lshortfile⟩
            ID := id }, ?_, rfl, rfl, rfl, rfl, rfl⟩
  unfold Config.NewSessionLogger
  rw [newLogger_eq]
  rfl

/-- Claim C9: a Logger built from a config snapshots the writers that
`GetWriter` resolves at construction time; a subsequent successful
mutation of the config (a `Disable` or a `Writer` call, yielding the new
config value `cfg2`) plays no role in the constructed Logger's sinks —
the conclusion names only the original `cfg`. -/
theorem C9_construction_snapshot (cfg : Config) (pfx : String) (l : Int)
    (ws : List Writer) (cfg2 : Config)
    (_h : cfg.Disable l = .ok cfg2 ∨ cfg.Writer l ws = .ok cfg2) :
    ∃ L, Config.newLogger cfg pfx = .ok L ∧
      L.I.out = resolveInfo cfg ∧ L.W.out = resolveWarn cfg ∧
      L.E.out = resolveErr cfg :=
  ⟨_, newLogger_eq cfg pfx, rfl, rfl, rfl⟩

/-- Witness for C9: the zero config, mutated by disabling `Info` after a
logger was built from it. -/
theorem C9_witness :
    (DefaultConfig.Disable 0 =
      .ok ⟨⟨true, false, false⟩, ⟨none, none, none⟩⟩ ∨
     DefaultConfig.Writer 0 [] =
      .ok ⟨⟨true, false, false⟩, ⟨none, none, none⟩⟩) ∧
    ∃ L, Config.newLogger DefaultConfig "" = .ok L ∧
      L.I.out = resolveInfo DefaultConfig ∧
      L.W.out = resolveWarn DefaultConfig ∧
      L.E.out = resolveErr DefaultConfig :=
  ⟨Or.inl rfl,
    C9_construction_snapshot DefaultConfig "" 0 []
      ⟨⟨true, false, false⟩, ⟨none, none, none⟩⟩ (Or.inl rfl)⟩

/-- A filesystem/clock oracle on which every operation succeeds. -/
def envOk : FsEnv := ⟨fun _ => none, fun _ => none, "m01-d02-t000000"⟩

/-- A filesystem/clock oracle on which `os.MkdirAll` fails. -/
def envMkdirFail : FsEnv :=
  ⟨fun _ => some ⟨"mkdir: permission denied"⟩, fun _ => none, "m01-d02-t000000"⟩

/-- Claim C4 (code bug): `MustCreateLogFile` indeed panics exactly when
`CreateLogFile` fails and returns the created file otherwise; but
`MustInitalizeLogger` panics unconditionally — its body is
`panic("..." + InitalizeLogger(logdir).Error())`, so on the succeeding
input `logdir = ""` (where `InitalizeLogger` returns a nil error) it still
panics, through the nil-error method call `.Error()` — contradicting its
own doc comment ("just InitalizeLogger that panics on error"). -/
theorem C4_must_variants :
    CreateLogFile envOk "logs" = .ok ⟨"logs/m01-d02-t000000.log"⟩ ∧
    MustCreateLogFile envOk "logs" = .ok ⟨"logs/m01-d02-t000000.log"⟩ ∧
    CreateLogFile envMkdirFail "logs" = .error ⟨"mkdir: permission denied"⟩ ∧
    MustCreateLogFile envMkdirFail "logs" =
      .error (.message ("Log file creation failed. *shrug* Guess I\x27ll die.\n" ++
        "mkdir: permission denied")) ∧
    (InitalizeLogger envOk initialState "").fst = .ok () ∧
    (MustInitalizeLogger envOk initialState "").fst = .error .nilDereference :=
  ⟨rfl, rfl, rfl, rfl, rfl, rfl⟩

/-- The global state left by a first successful `InitalizeLogger` call
with `logdir = "logs"` under `envOk`. -/
def initializedState : GlobalState :=
  ⟨true,
   some (.multi [.file "logs/m01-d02-t000000.log", .stdout]),
   some (.multi [.file "logs/m01-d02-t000000.log", .stdout]),
   some (.multi [.file "logs/m01-d02-t000000.log", .stderr]),
   true⟩

/-- Claim C5 (code bug in the source text, behaviour as intended): a
first `InitalizeLogger` call succeeds and installs the three global
sinks; any second call — whatever its argument or filesystem outcome —
returns the distinguished already-initialized error and returns the state
unchanged, so the first call's sinks are intact.  (The source spells the
returned identifier `ErrLoggerAlreadyInitalized`, which is declared
nowhere — the declared error is `ErrAlreadyInitalized`; the model uses
the declared error, which the source's own doc comment says is
returned.) -/
theorem C5_reinitialization :
    InitalizeLogger envOk initialState "logs" = (.ok (), initializedState) ∧
    InitalizeLogger envOk initializedState "logs" =
      (.error ErrAlreadyInitalized, initializedState) ∧
    InitalizeLogger envMkdirFail initializedState "other" =
      (.error ErrAlreadyInitalized, initializedState) ∧
    InitalizeLogger envOk initializedState "" =
      (.error ErrAlreadyInitalized, initializedState) ∧
    initializedState.infoLog =
      some (.multi [.file "logs/m01-d02-t000000.log", .stdout]) ∧
    initializedState.errorLog =
      some (.multi [.file "logs/m01-d02-t000000.log", .stderr]) :=
  ⟨rfl, rfl, rfl, rfl, rfl, rfl⟩

end SessionLogger
